import Mathlib

/-!
Verification development for the webwormhole repository core:
the Variant B handshake state machine of `src/web/ww.ts` (class `Wormhole`)
and the Variant A dial plus data pump of `src/cmd/rtcpipe/main.go`.

The browser/WASM primitives (JSON parsing, the PAKE oracle, WebRTC calls)
are external collaborators; they are modelled as abstract parameters in an
`Oracle` record, while the control flow of the source is embedded faithfully.
-/

namespace WW

/-- Password / secret bytes (`this.pass : Uint8Array`). -/
abbrev Pass := List Nat

/-- Derived symmetric key (`this.key : Uint8Array`). -/
abbrev Key := List Nat

/-- One entry of the ICE server list delivered by the broker.  The Go-exported
JSON capitalises the field names and `makePeerConnection` lowercases them;
that renaming is identity up to field names here. -/
structure IceServer where
  urls : List String
  username : String
  credential : String
deriving Repr, DecidableEq

/-- Result of `JSON.parse` applied to the plaintext of a sealed message:
an `RTCSessionDescriptionInit` (field `type`) or a candidate (field
`candidate`).  Absent fields are `none`, matching `undefined` in JS. -/
structure Json where
  type : Option String
  sdp : Option String
  candidate : Option String
deriving Repr, DecidableEq

/-- The states of `Wormhole.state` (a plain string in the source).
`wait_for_local_offer` and `wait_for_local_answer` appear only as case
labels of the unexpected-message group in `onmessage`; `wait_for_pc_setup`
renders the source state string "wait_for_pc_initialize". -/
inductive WwState
  | a
  | b
  | wait_for_pake_a
  | wait_for_pake_b
  | wait_for_pc_setup
  | wait_for_webtc_offer
  | wait_for_webtc_answer
  | wait_for_candidates
  | wait_for_local_offer
  | wait_for_local_answer
  | error
deriving Repr, DecidableEq

/-- Observable side effects of the handshake handlers: WebSocket traffic,
promise resolution/rejection, and mutations of the RTCPeerConnection.
`deferOnFinish k` records a `this.finishPromise.then(...)` callback whose
body performs the effects `k` in order once the caller signals that it is
done configuring the PeerConnection (the callback re-checks that
`ws`/`key`/`pc` are still set, which holds whenever it was registered). -/
inductive PEffect
  | newPeerConnection (ice : List IceServer)
  | wsSend (m : String)
  | wsClose (code : Nat)
  | signalResolve (code : Option String)
  | signalReject (reason : String)
  | doneResolve (fp : List Nat)
  | doneReject (reason : String)
  | setLocalDescription (d : String)
  | setRemoteDescription (d : Json)
  | addIceCandidate (c : Json)
  | setState (s : WwState)
  | deferOnFinish (k : List PEffect)
deriving Repr

/-- The mutable fields of a `Wormhole` instance that the handlers read.
`ws` and `pc` record whether `this.ws` / `this.pc` are set. -/
structure WwSession where
  pass : Pass
  state : WwState
  slot : Option Nat
  ws : Bool
  pc : Bool
  key : Option Key
deriving Repr

/-- The external collaborators of `onmessage`: the WASM PAKE/codec oracle
(`webwormhole.*`), JSON parsing, and the local WebRTC description factory.
`openJson k d` models `JSON.parse(webwormhole.open(k, d))`, `none` standing
for a decryption failure (`null`).  `parseAnnounce` models `JSON.parse` of
the broker announcement, returning the optional `slot` string and the ICE
server list.  `parseIntSafe` models `parseInt(s, 10)` followed by the
`Number.isSafeInteger` check.  `createOffer`/`createAnswer` stand for the
serialized local descriptions produced by the PeerConnection. -/
structure Oracle where
  encode : Nat → Pass → String
  start : Pass → Option String
  exchange : Pass → String → Option Key × String
  finish : String → Option Key
  sealMsg : Key → String → String
  openJson : Key → String → Option Json
  fingerprint : Key → List Nat
  parseAnnounce : String → Option String × List IceServer
  parseIntSafe : String → Option Nat
  createOffer : String
  createAnswer : String

/-- `Wormhole.fail(reason)`: reject the signal and done promises and move to
the `error` state.  (ww.ts lines 411-415.) -/
def fail (s : WwSession) (reason : String) : WwSession × List PEffect :=
  ({ s with state := .error }, [.signalReject reason, .doneReject reason])

/-- The shared decrypt-failure branch of the sealed-message states
(ww.ts lines 278-282, 310-314, 332-336): `fail("bad key")`, then send an
authenticated `bye`, then close the socket with code 4005 (`closeBadKey`). -/
def badKeyAbort (o : Oracle) (s : WwSession) (k : Key) : WwSession × List PEffect :=
  let r := fail s "bad key"
  (r.1, r.2 ++ [.wsSend (o.sealMsg k "bye"), .wsClose 4005])

/-- `Wormhole.onmessage` (ww.ts lines 192-356).  `data` is `m.data`.
Returns the session after the synchronous part of the handler together with
the list of effects it performed, deferred callbacks included as
`deferOnFinish`. -/
def onmessage (o : Oracle) (s : WwSession) (data : String) : WwSession × List PEffect :=
  if s.ws = false then (s, []) else
  match s.state with
  | .a =>
    -- JSON.parse(m.data) as {slot, iceServers}; parseInt + isSafeInteger.
    let parsed := o.parseAnnounce data
    match parsed.1.bind o.parseIntSafe with
    | none => fail { s with slot := none } "invalid slot"
    | some slotNum =>
      ({ s with slot := some slotNum, pc := true, state := .wait_for_pake_a },
       [.newPeerConnection parsed.2,
        .signalResolve (some (o.encode slotNum s.pass))])
  | .b =>
    let parsed := o.parseAnnounce data
    -- makePeerConnection and signalResolve happen before the PAKE start.
    match o.start s.pass with
    | none =>
      let r := fail { s with pc := true } "couldnt generate As PAKE message"
      (r.1, [.newPeerConnection parsed.2, .signalResolve none] ++ r.2)
    | some msgA =>
      ({ s with pc := true, state := .wait_for_pake_b },
       [.newPeerConnection parsed.2, .signalResolve none, .wsSend msgA])
  | .wait_for_pake_a =>
    if s.pc = false then (s, []) else
    -- [this.key, msgB] = webwormhole.exchange(this.pass, m.data)
    let ex := o.exchange s.pass data
    match ex.1 with
    | none => fail { s with key := none } "could not generate key"
    | some k =>
      ({ s with key := some k, state := .wait_for_pc_setup },
       [.wsSend ex.2,
        .deferOnFinish
          [.wsSend (o.sealMsg k o.createOffer),
           .setState .wait_for_webtc_answer,
           .setLocalDescription o.createOffer]])
  | .wait_for_pake_b =>
    match o.finish data with
    | none => fail { s with key := none } "could not generate key"
    | some k => ({ s with key := some k, state := .wait_for_webtc_offer }, [])
  | .wait_for_webtc_offer =>
    match s.key, s.pc with
    | some k, true =>
      match o.openJson k data with
      | none => badKeyAbort o s k
      | some msg =>
        if msg.type = some "offer" then
          ({ s with state := .wait_for_candidates },
           [.deferOnFinish
             [.setRemoteDescription msg,
              .wsSend (o.sealMsg k o.createAnswer),
              .doneResolve (o.fingerprint k),
              .setLocalDescription o.createAnswer]])
        else fail s "unexpected message"
    | _, _ => (s, [])
  | .wait_for_webtc_answer =>
    match s.key, s.pc with
    | some k, true =>
      match o.openJson k data with
      | none => badKeyAbort o s k
      | some msg =>
        if msg.type = some "answer" then
          ({ s with state := .wait_for_candidates },
           [.setRemoteDescription msg, .doneResolve (o.fingerprint k)])
        else fail s "unexpected message"
    | _, _ => (s, [])
  | .wait_for_candidates =>
    match s.key, s.pc with
    | some k, true =>
      match o.openJson k data with
      | none => badKeyAbort o s k
      | some msg => (s, [.deferOnFinish [.addIceCandidate msg]])
    | _, _ => (s, [])
  | .wait_for_pc_setup => fail s "unexpected message"
  | .wait_for_local_offer => fail s "unexpected message"
  | .wait_for_local_answer => fail s "unexpected message"
  | .error => (s, [])

/-- `Wormhole.onclose` (ww.ts lines 389-409).  Close codes 4004 and 1001 are
silently ignored; the four broker error codes and the default branch call
`fail`. -/
def onclose (s : WwSession) (code : Nat) (reason : String) : WwSession × List PEffect :=
  if code = 4000 then fail s "no such slot"
  else if code = 4001 then fail s "timed out"
  else if code = 4002 then fail s "could not get slot"
  else if code = 4003 then fail s "wrong protocol version, must update"
  else if code = 4004 ∨ code = 1001 then (s, [])
  else fail s ("websocket session closed: " ++ reason ++ " (" ++ toString code ++ ")")

/-- The components of a parsed URL that `Wormhole.wsserver` reads
(`new URL(url)` is a browser primitive). -/
structure ParsedURL where
  protocol : String
  host : String
  pathname : String
deriving Repr

/-- `Wormhole.wsserver` (ww.ts lines 417-432).  `slot` is the optional
argument; the JS guard `if (slot)` is falsy both for `undefined` and for
`0`, which the `match` reproduces. -/
def wsserver (u : ParsedURL) (slot : Option Nat) : String :=
  let protocol := if u.protocol = "http:" then "ws:" else "wss:"
  let path := if u.pathname.startsWith "/" then u.pathname else "/" ++ u.pathname
  let path :=
    match slot with
    | some n => if n ≠ 0 then path ++ toString n else path
    | none => path
  protocol ++ "//" ++ u.host ++ path

/-- All WebSocket payloads sent by a list of effects, including those sent
inside deferred `finishPromise` callbacks, in order. -/
def sendsOf : List PEffect → List String
  | [] => []
  | .wsSend m :: rest => m :: sendsOf rest
  | .deferOnFinish k :: rest => sendsOf k ++ sendsOf rest
  | _ :: rest => sendsOf rest

/-- Whether a list of effects (deferred callbacks included) applies a remote
description or adds an ICE candidate to the transport endpoint. -/
def appliesToPC : List PEffect → Bool
  | [] => false
  | .setRemoteDescription _ :: _ => true
  | .addIceCandidate _ :: _ => true
  | .deferOnFinish k :: rest => appliesToPC k || appliesToPC rest
  | _ :: rest => appliesToPC rest

/-- A concrete oracle for evaluating the handshake on explicit inputs:
sealing prepends a tag, the PAKE always succeeds with key `[1]`, and the
local descriptions are the fixed strings `OFFERSDP` / `ANSWERSDP`. -/
def cexOracle : Oracle where
  encode := fun n _ => "code" ++ toString n
  start := fun _ => some "pakeA"
  exchange := fun _ _ => (some [1], "pakeB")
  finish := fun _ => some [1]
  sealMsg := fun _ m => "sealed:" ++ m
  openJson := fun _ d =>
    if d = "sealed:OFFERSDP" then
      some { type := some "offer", sdp := some "OFFERSDP", candidate := none }
    else if d = "sealed:ANSWERSDP" then
      some { type := some "answer", sdp := some "ANSWERSDP", candidate := none }
    else none
  fingerprint := fun _ => [9]
  parseAnnounce := fun _ => (some "7", [])
  parseIntSafe := fun s => s.toNat?
  createOffer := "OFFERSDP"
  createAnswer := "ANSWERSDP"

/-- A slot-creator session (constructed without a code) that has reached
`wait_for_pake_a` and is about to process the peer's PAKE message 1. -/
def creatorS : WwSession :=
  { pass := [3, 4], state := .wait_for_pake_a, slot := some 7, ws := true,
    pc := true, key := none }

/-- A slot-joiner session (constructed with a code) that has derived the key
and is waiting for the sealed offer. -/
def joinerS : WwSession :=
  { pass := [3, 4], state := .wait_for_webtc_offer, slot := some 7, ws := true,
    pc := true, key := some [1] }

/-- A slot-joiner session right after construction (state "b"), before the
broker announcement arrives. -/
def joinerB : WwSession :=
  { pass := [3, 4], state := .b, slot := some 7, ws := true,
    pc := false, key := none }

/-- A session in the `wait_for_pc_setup` suspension state. -/
def pcInitS : WwSession := { joinerS with state := .wait_for_pc_setup }

/-- A session in the terminal `error` state. -/
def errS : WwSession := { joinerS with state := .error }

/-- A concrete parsed URL for evaluating `wsserver`. -/
def urlEx : ParsedURL := { protocol := "http:", host := "h", pathname := "/x/" }

end WW

namespace RP

/-- `webrtc.SDPType` of the pion webrtc package. -/
inductive SDPType
  | offer
  | pranswer
  | answer
  | rollback
deriving Repr, DecidableEq

/-- `String()` of `webrtc.SDPType`, as interpolated by `%v` in the
unknown-type error of `dial`. -/
def sdpTypeString : SDPType → String
  | .offer => "offer"
  | .pranswer => "pranswer"
  | .answer => "answer"
  | .rollback => "rollback"

/-- `webrtc.SessionDescription`. -/
structure SessionDescription where
  sdptype : SDPType
  sdp : String
deriving Repr, DecidableEq

/-- Observable trace of `dial` (main.go lines 61-181): how many
`PeerConnection` endpoints were allocated, which descriptions were applied
to which endpoint generation (1 = the original, 2 = the replacement built
on collision), and which descriptions were posted to the broker. -/
structure DialTrace where
  pcCount : Nat
  remoteSet : List (Nat × SessionDescription)
  localSet : List (Nat × SessionDescription)
  posts : List SessionDescription
deriving Repr, DecidableEq

/-- `dial` (main.go lines 61-181), with its external collaborators as
parameters: `offer`/`answer` are the descriptions produced by
`CreateOffer`/`CreateAnswer`; `resp1` is the broker response to the posted
offer (`none` for a non-200 status or transport failure); `resp2ok` is the
status of the second post on the collision path; `openEv` is the final
`select` between the channel-open signal (`none`) and an error (`some e`).
Infallible-by-assumption steps (PeerConnection and DataChannel creation,
JSON marshalling) are folded into the trace directly.  Boilerplate the
source repeats on both endpoints (callbacks and the 512 KiB
`SetBufferedAmountLowThreshold`) carries no trace effect. -/
def dial (offer answer : SessionDescription) (resp1 : Option SessionDescription)
    (resp2ok : Bool) (openEv : Option String) : Except String DialTrace :=
  -- NewPeerConnection + CreateDataChannel (endpoint generation 1).
  let t : DialTrace := { pcCount := 1, remoteSet := [], localSet := [], posts := [] }
  -- SetLocalDescription(offer); http.Post(sigserv+slot, offer).
  let t := { t with localSet := t.localSet ++ [(t.pcCount, offer)] }
  let t := { t with posts := t.posts ++ [offer] }
  match resp1 with
  | none => .error "signalling server returned status"
  | some remote =>
    match remote.sdptype with
    | .offer =>
      -- The webrtc package does not support rollback: fresh PeerConnection
      -- and DataChannel (endpoint generation 2), then the answer path.
      let t := { t with pcCount := t.pcCount + 1 }
      let t := { t with remoteSet := t.remoteSet ++ [(t.pcCount, remote)] }
      let t := { t with localSet := t.localSet ++ [(t.pcCount, answer)] }
      let t := { t with posts := t.posts ++ [answer] }
      if resp2ok = false then .error "signalling server returned status"
      else
        match openEv with
        | none => .ok t
        | some e => .error e
    | .answer =>
      let t := { t with remoteSet := t.remoteSet ++ [(t.pcCount, remote)] }
      match openEv with
      | none => .ok t
      | some e => .error e
    | _ => .error ("unknown sdp type: " ++ sdpTypeString remote.sdptype)

/-- A concrete offer description for evaluating `dial`. -/
def sdOffer : SessionDescription := { sdptype := .offer, sdp := "sdpO" }

/-- A concrete answer description for evaluating `dial`. -/
def sdAnswer : SessionDescription := { sdptype := .answer, sdp := "sdpA" }

/-- A concrete provisional-answer description for evaluating `dial`. -/
def sdPranswer : SessionDescription := { sdptype := .pranswer, sdp := "sdpP" }

/-- `SetBufferedAmountLowThreshold(512 << 10)` (main.go lines 94, 138). -/
def lowWaterMark : Nat := 512 * 1024

/-- The 32 KiB read buffer of the send goroutine (main.go line 226). -/
def chunkSize : Nat := 32 * 1024

/-- Program counter of the send ("Fill") goroutine (main.go lines 220-260).
`lockCheck` holds the condition lock evaluating
`BufferedAmount() > BufferedAmountLowThreshold()`; `waiting` is inside
`flushc.Wait()`; `reading` is the `os.Stdin.Read` after the gate;
`writing n` holds `n` just-read bytes about to be written; `sendDone` is
the `done <- struct{}{}` after the loop breaks; `exited` is past it. -/
inductive FillPC
  | lockCheck
  | waiting
  | reading
  | writing (n : Nat)
  | sendDone
  | exited
deriving Repr, DecidableEq

/-- Program counter of the receive ("Drain") goroutine
(main.go lines 210-217). -/
inductive DrainPC
  | running
  | sendDone
  | exited
deriving Repr, DecidableEq

/-- Program counter of the main flow after `dial` (main.go lines 262-269):
the single `<-done` receive, the `BufferedAmount() != 0` poll loop, then
`c.rwc.Close()`, `c.d.Close()`, `c.pc.Close()`. -/
inductive MainPC
  | recvDone
  | poll
  | closeRwc
  | closeD
  | closePc
  | exited
deriving Repr, DecidableEq

/-- Global state of the data pump.  `buffered` is the channel's
`BufferedAmount()` (increased only by the send goroutine's writes,
decreased by the transport flushing data out).  `stdin` is the sequence of
sizes of the remaining successful `os.Stdin.Read` calls (each at most 32
KiB); `[]` means the next read returns `io.EOF`.  `sawZero` is a history
flag recording that the poll loop observed `BufferedAmount() == 0`. -/
structure Pump where
  fill : FillPC
  drain : DrainPC
  mn : MainPC
  buffered : Nat
  stdin : List Nat
  closedRwc : Bool
  closedD : Bool
  closedPc : Bool
  sawZero : Bool
deriving Repr, DecidableEq

/-- Pump state right after `dial` returns (main.go line 207): both
goroutines start, main blocks on `<-done`, nothing buffered yet. -/
def pumpInit (stdin0 : List Nat) : Pump :=
  { fill := .lockCheck, drain := .running, mn := .recvDone, buffered := 0,
    stdin := stdin0, closedRwc := false, closedD := false, closedPc := false,
    sawZero := false }

/-- One interleaved step of the pump (main.go lines 207-269).  The unbuffered
`done` channel appears as the two rendezvous steps `recvFromFill` /
`recvFromDrain`; main performs exactly one receive, so a goroutine reaching
`sendDone` after that receive blocks forever (no applicable step).  The
condition variable appears as `checkHigh`/`lowNotify`: the only way out of
`waiting` is `lowNotify`, which requires the buffered amount to have
reached the low-water mark, mirroring `OnBufferedAmountLow` firing
`flushed`. -/
inductive PStep : Pump → Pump → Prop
  | checkHigh (s : Pump) : s.fill = .lockCheck → s.buffered > lowWaterMark →
      PStep s { s with fill := .waiting }
  | checkLow (s : Pump) : s.fill = .lockCheck → ¬ s.buffered > lowWaterMark →
      PStep s { s with fill := .reading }
  | lowNotify (s : Pump) : s.fill = .waiting → ¬ s.buffered > lowWaterMark →
      PStep s { s with fill := .lockCheck }
  | readChunk (s : Pump) (n : Nat) (rest : List Nat) : s.fill = .reading →
      s.stdin = n :: rest → 0 < n → n ≤ chunkSize →
      PStep s { s with fill := .writing n, stdin := rest }
  | readEOF (s : Pump) : s.fill = .reading → s.stdin = [] →
      PStep s { s with fill := .sendDone }
  | writeOk (s : Pump) (n : Nat) : s.fill = .writing n →
      PStep s { s with fill := .lockCheck, buffered := s.buffered + n }
  | writeErr (s : Pump) (n : Nat) : s.fill = .writing n →
      PStep s { s with fill := .sendDone }
  | transportFlush (s : Pump) (k : Nat) : 0 < k → k ≤ s.buffered →
      PStep s { s with buffered := s.buffered - k }
  | drainFinish (s : Pump) : s.drain = .running →
      PStep s { s with drain := .sendDone }
  | recvFromFill (s : Pump) : s.mn = .recvDone → s.fill = .sendDone →
      PStep s { s with mn := .poll, fill := .exited }
  | recvFromDrain (s : Pump) : s.mn = .recvDone → s.drain = .sendDone →
      PStep s { s with mn := .poll, drain := .exited }
  | pollSpin (s : Pump) : s.mn = .poll → s.buffered ≠ 0 → PStep s s
  | pollZero (s : Pump) : s.mn = .poll → s.buffered = 0 →
      PStep s { s with mn := .closeRwc, sawZero := true }
  | closeRwcStep (s : Pump) : s.mn = .closeRwc →
      PStep s { s with closedRwc := true, mn := .closeD }
  | closeDStep (s : Pump) : s.mn = .closeD →
      PStep s { s with closedD := true, mn := .closePc }
  | closePcStep (s : Pump) : s.mn = .closePc →
      PStep s { s with closedPc := true, mn := .exited }

/-- Reachability along pump steps. -/
def PReach (a b : Pump) : Prop := Relation.ReflTransGen PStep a b

/-- Inductive invariant of the pump: the backpressure gate, the
single-receive teardown, and the close ordering flags. -/
def PumpInv (s : Pump) : Prop :=
  (∀ n, s.fill = .writing n → s.buffered ≤ lowWaterMark) ∧
  (s.fill = .reading → s.buffered ≤ lowWaterMark) ∧
  (s.mn ≠ .recvDone → s.drain = .exited ∨ s.fill = .exited) ∧
  ((s.mn = .closeRwc ∨ s.mn = .closeD ∨ s.mn = .closePc ∨ s.mn = .exited) →
     s.sawZero = true) ∧
  (s.closedRwc = true → s.sawZero = true) ∧
  (s.closedD = true → s.sawZero = true ∧ s.closedRwc = true) ∧
  (s.closedPc = true → s.closedD = true) ∧
  ((s.mn = .closeD ∨ s.mn = .closePc ∨ s.mn = .exited) → s.closedRwc = true) ∧
  ((s.mn = .closePc ∨ s.mn = .exited) → s.closedD = true) ∧
  (s.mn = .exited → s.closedPc = true)

/-- A concrete pump run with one unread stdin chunk pending: the Drain
direction finishes first and main's single `<-done` receive fires. -/
def pumpT0 : Pump := pumpInit [1]

def pumpT1 : Pump := { pumpT0 with drain := .sendDone }

def pumpT2 : Pump := { pumpT1 with mn := .poll, drain := .exited }

def pumpT3 : Pump := { pumpT2 with mn := .closeRwc, sawZero := true }

def pumpT4 : Pump := { pumpT3 with closedRwc := true, mn := .closeD }

/-- State in which the data channel has been closed while the Fill direction
is still at the top of its loop with stdin unread. -/
def pumpT5 : Pump := { pumpT4 with closedD := true, mn := .closePc }

theorem pumpInv_init (stdin0 : List Nat) : PumpInv (pumpInit stdin0) := by
  refine ⟨?_, ?_, ?_, ?_, ?_, ?_, ?_, ?_, ?_, ?_⟩ <;> simp [pumpInit]

theorem pumpInv_step {a b : Pump} (hi : PumpInv a) (h : PStep a b) : PumpInv b := by
  obtain ⟨i1, i2, i3, i4, i5, i6, i7, i8, i9, i10⟩ := hi
  cases h with
  | checkHigh h1 h2 =>
      refine ⟨?_, ?_, ?_, ?_, ?_, ?_, ?_, ?_, ?_, ?_⟩ <;> simp_all
  | checkLow h1 h2 =>
      refine ⟨?_, ?_, ?_, ?_, ?_, ?_, ?_, ?_, ?_, ?_⟩ <;> simp_all
  | lowNotify h1 h2 =>
      refine ⟨?_, ?_, ?_, ?_, ?_, ?_, ?_, ?_, ?_, ?_⟩ <;> simp_all
  | readChunk n rest h1 h2 h3 h4 =>
      refine ⟨?_, ?_, ?_, ?_, ?_, ?_, ?_, ?_, ?_, ?_⟩ <;> simp_all
  | readEOF h1 h2 =>
      refine ⟨?_, ?_, ?_, ?_, ?_, ?_, ?_, ?_, ?_, ?_⟩ <;> simp_all
  | writeOk n h1 =>
      refine ⟨?_, ?_, ?_, ?_, ?_, ?_, ?_, ?_, ?_, ?_⟩ <;> simp_all
  | writeErr n h1 =>
      refine ⟨?_, ?_, ?_, ?_, ?_, ?_, ?_, ?_, ?_, ?_⟩ <;> simp_all
  | transportFlush k hk1 hk2 =>
      exact ⟨fun n hn => le_trans (Nat.sub_le _ _) (i1 n hn),
             fun hr => le_trans (Nat.sub_le _ _) (i2 hr),
             i3, i4, i5, i6, i7, i8, i9, i10⟩
  | drainFinish h1 =>
      refine ⟨?_, ?_, ?_, ?_, ?_, ?_, ?_, ?_, ?_, ?_⟩ <;> simp_all
  | recvFromFill h1 h2 =>
      refine ⟨?_, ?_, ?_, ?_, ?_, ?_, ?_, ?_, ?_, ?_⟩ <;> simp_all
  | recvFromDrain h1 h2 =>
      refine ⟨?_, ?_, ?_, ?_, ?_, ?_, ?_, ?_, ?_, ?_⟩ <;> simp_all
  | pollSpin h1 h2 =>
      exact ⟨i1, i2, i3, i4, i5, i6, i7, i8, i9, i10⟩
  | pollZero h1 h2 =>
      refine ⟨?_, ?_, ?_, ?_, ?_, ?_, ?_, ?_, ?_, ?_⟩ <;> simp_all
  | closeRwcStep h1 =>
      refine ⟨?_, ?_, ?_, ?_, ?_, ?_, ?_, ?_, ?_, ?_⟩ <;> simp_all
  | closeDStep h1 =>
      refine ⟨?_, ?_, ?_, ?_, ?_, ?_, ?_, ?_, ?_, ?_⟩ <;> simp_all
  | closePcStep h1 =>
      refine ⟨?_, ?_, ?_, ?_, ?_, ?_, ?_, ?_, ?_, ?_⟩ <;> simp_all

theorem pumpInv_reach {stdin0 : List Nat} {s : Pump}
    (h : PReach (pumpInit stdin0) s) : PumpInv s := by
  induction h with
  | refl => exact pumpInv_init stdin0
  | tail hr hs ih => exact pumpInv_step ih hs

theorem pumpReach_T5 : PReach pumpT0 pumpT5 :=
  Relation.ReflTransGen.tail
    (Relation.ReflTransGen.tail
      (Relation.ReflTransGen.tail
        (Relation.ReflTransGen.tail
          (Relation.ReflTransGen.tail Relation.ReflTransGen.refl
            (PStep.drainFinish pumpT0 rfl))
          (PStep.recvFromDrain pumpT1 rfl rfl))
        (PStep.pollZero pumpT2 rfl rfl))
      (PStep.closeRwcStep pumpT3 rfl))
    (PStep.closeDStep pumpT4 rfl)

/-- A concrete pump run in which the Fill direction has read a 4-byte chunk
and is about to write it. -/
def pumpW0 : Pump := pumpInit [4]

def pumpW1 : Pump := { pumpW0 with fill := .reading }

def pumpW2 : Pump := { pumpW1 with fill := .writing 4, stdin := [] }

theorem pumpReach_W2 : PReach pumpW0 pumpW2 :=
  Relation.ReflTransGen.tail
    (Relation.ReflTransGen.tail Relation.ReflTransGen.refl
      (PStep.checkLow pumpW0 rfl (by decide)))
    (PStep.readChunk pumpW1 4 [] rfl rfl (by decide) (by decide))

end RP

namespace RP

/-- Claim C2, counterexample: the completion channel `done` is received from
only ONCE by `main` (main.go line 262), so teardown does not wait for both
directions.  In the concrete run `pumpReach_T5` the Drain direction
finishes, the single receive fires, the poll observes an empty buffer, and
the data channel is closed (`closedD = true`) while the Fill direction has
not completed: it is still at the top of its loop (`fill = lockCheck`) with
its stdin chunk unread.  This refutes "teardown begins only after both
directions have each reported completion" and "the completion rendezvous
fires exactly twice before any close is attempted". -/
theorem rendezvous_once_counterexample :
    PReach (pumpInit [1]) pumpT5 ∧ pumpT5.closedD = true ∧
    pumpT5.fill = FillPC.lockCheck ∧ pumpT5.stdin = [1] :=
  ⟨pumpReach_T5, rfl, rfl, rfl⟩

/-- Claim C2, amended: teardown begins only after the FIRST of the two
directions reports completion and rendezvouses with main's single receive:
whenever the main flow is past `<-done`, at least one direction has
completed. -/
theorem teardown_after_first_direction {stdin0 : List Nat} {s : Pump}
    (h : PReach (pumpInit stdin0) s) (hm : s.mn ≠ MainPC.recvDone) :
    s.drain = DrainPC.exited ∨ s.fill = FillPC.exited :=
  (pumpInv_reach h).2.2.1 hm

/-- Claim C2, witness for the amended theorem at the concrete run
`pumpReach_T5`. -/
theorem teardown_after_first_direction_witness :
    pumpT5.drain = DrainPC.exited ∨ pumpT5.fill = FillPC.exited :=
  teardown_after_first_direction pumpReach_T5 (by decide)

/-- Claim C3: backpressure in the Fill direction.  In every reachable pump
state (a) whenever the sender is about to write a chunk
(`fill = writing n`), the buffered amount is at or below the 512 KiB
low-water mark, and (b) the only transition out of the blocked `waiting`
state is the low-water-mark notification, which requires
`bufferedAmount ≤ lowWaterMark` and returns the sender to the loop check. -/
theorem fill_backpressure {stdin0 : List Nat} {s : Pump}
    (h : PReach (pumpInit stdin0) s) :
    (∀ n, s.fill = FillPC.writing n → s.buffered ≤ lowWaterMark) ∧
    (∀ s', PStep s s' → s.fill = FillPC.waiting → s'.fill ≠ FillPC.waiting →
       s'.fill = FillPC.lockCheck ∧ s.buffered ≤ lowWaterMark) := by
  refine ⟨(pumpInv_reach h).1, ?_⟩
  intro s' hstep hw hne
  cases hstep
  case lowNotify h1 h2 => exact ⟨rfl, Nat.not_lt.mp h2⟩
  all_goals simp_all

/-- Claim C3, witness: the concrete reachable state `pumpW2` is about to
write a 4-byte chunk and its buffered amount is below the mark. -/
theorem fill_backpressure_witness : pumpW2.buffered ≤ lowWaterMark :=
  (fill_backpressure pumpReach_W2).1 4 rfl

/-- Claim C8: shutdown ordering.  In every reachable pump state, if the data
channel has been closed then the poll loop had observed
`BufferedAmount() == 0` (ghost flag `sawZero`) and `rwc` was closed first;
the peer connection is closed only after the data channel; and the only way
the main flow leaves the poll loop is by observing a zero buffered
amount. -/
theorem shutdown_ordering {stdin0 : List Nat} {s : Pump}
    (h : PReach (pumpInit stdin0) s) :
    (s.closedD = true → s.sawZero = true ∧ s.closedRwc = true) ∧
    (s.closedPc = true → s.closedD = true) ∧
    (∀ s', PStep s s' → s.mn = MainPC.poll → s'.mn ≠ MainPC.poll →
       s.buffered = 0) := by
  obtain ⟨-, -, -, -, -, i6, i7, -, -, -⟩ := pumpInv_reach h
  refine ⟨i6, i7, ?_⟩
  intro s' hstep hp hne
  cases hstep
  case pollZero h1 h2 => exact h2
  all_goals simp_all

/-- Claim C8, witness at the concrete run `pumpReach_T5`, whose final state
has the channel closed. -/
theorem shutdown_ordering_witness :
    pumpT5.sawZero = true ∧ pumpT5.closedRwc = true :=
  (shutdown_ordering pumpReach_T5).1 rfl

/-- Claim C4: `dial`'s handling of the broker response to the posted offer.
On an "offer" response (collision) with a successful second post, exactly
one fresh endpoint is allocated (`pcCount = 2`), the received description
becomes the remote description of the fresh endpoint, a local answer is set
on it, and the answer is posted as a second request.  On an "answer"
response the description is set as remote directly with no recreation.  Any
other type fails with the unknown-description-type error. -/
theorem dial_description_handling (offer answer r : SessionDescription)
    (ok2 : Bool) :
    (r.sdptype = SDPType.offer → ok2 = true →
      dial offer answer (some r) ok2 none =
        Except.ok { pcCount := 2, remoteSet := [(2, r)],
                    localSet := [(1, offer), (2, answer)],
                    posts := [offer, answer] }) ∧
    (r.sdptype = SDPType.answer →
      dial offer answer (some r) ok2 none =
        Except.ok { pcCount := 1, remoteSet := [(1, r)],
                    localSet := [(1, offer)], posts := [offer] }) ∧
    ((r.sdptype = SDPType.pranswer ∨ r.sdptype = SDPType.rollback) →
      dial offer answer (some r) ok2 none =
        Except.error ("unknown sdp type: " ++ sdpTypeString r.sdptype)) := by
  refine ⟨?_, ?_, ?_⟩
  · intro h1 h2
    simp [dial, h1, h2]
  · intro h1
    simp [dial, h1]
  · rintro (h1 | h1) <;> simp [dial, h1]

/-- Claim C4, witness: a concrete collision run of `dial`. -/
theorem dial_description_handling_witness :
    dial sdOffer sdAnswer (some sdOffer) true none =
      Except.ok { pcCount := 2, remoteSet := [(2, sdOffer)],
                  localSet := [(1, sdOffer), (2, sdAnswer)],
                  posts := [sdOffer, sdAnswer] } :=
  (dial_description_handling sdOffer sdAnswer sdOffer true).1 rfl rfl

end RP

namespace WW

/-- Claim C1, counterexample: the coupling is the OPPOSITE of the claim.
The slot-creator (constructed without a code, here at `wait_for_pake_a`)
responds with PAKE message 2 and then defers sending the sealed OFFER,
moving towards `wait_for_webtc_answer`; the slot-joiner (constructed with a
code) receives the sealed offer at `wait_for_webtc_offer` and defers
sending the sealed ANSWER.  `"sealed:OFFERSDP"` is exactly
`sealMsg key createOffer`, so the slot-creator — not the slot-joiner —
sends the session-description offer, refuting the claim at this concrete
input. -/
theorem role_coupling_counterexample :
    sendsOf (onmessage cexOracle creatorS "pakeA").2 =
      ["pakeB", "sealed:OFFERSDP"] ∧
    (onmessage cexOracle creatorS "pakeA").1.state =
      WwState.wait_for_pc_setup ∧
    sendsOf (onmessage cexOracle joinerS "sealed:OFFERSDP").2 =
      ["sealed:ANSWERSDP"] ∧
    (onmessage cexOracle joinerS "sealed:OFFERSDP").1.state =
      WwState.wait_for_candidates ∧
    cexOracle.sealMsg [1] cexOracle.createOffer = "sealed:OFFERSDP" ∧
    cexOracle.sealMsg [1] cexOracle.createAnswer = "sealed:ANSWERSDP" := by
  refine ⟨?_, ?_, ?_, ?_, ?_, ?_⟩ <;>
    first
    | rfl
    | simp [onmessage, creatorS, joinerS, cexOracle, sendsOf]

/-- Claim C1, amended: the key-exchange role and the session-description
role are coupled the other way round: the slot-joiner (state "b") sends
PAKE message 1 and later answers the sealed offer with the sealed answer;
the slot-creator responds with PAKE message 2 and later initiates the
sealed offer, then accepts the sealed answer. -/
theorem role_coupling (o : Oracle) :
    (∀ s d mA, s.ws = true → s.state = WwState.b → o.start s.pass = some mA →
       (onmessage o s d).2 =
         [.newPeerConnection (o.parseAnnounce d).2, .signalResolve none,
          .wsSend mA] ∧
       (onmessage o s d).1.state = WwState.wait_for_pake_b) ∧
    (∀ s d k mB, s.ws = true → s.pc = true →
       s.state = WwState.wait_for_pake_a →
       o.exchange s.pass d = (some k, mB) →
       (onmessage o s d).2 =
         [.wsSend mB,
          .deferOnFinish [.wsSend (o.sealMsg k o.createOffer),
                          .setState WwState.wait_for_webtc_answer,
                          .setLocalDescription o.createOffer]] ∧
       (onmessage o s d).1.state = WwState.wait_for_pc_setup) ∧
    (∀ s d k j, s.ws = true → s.pc = true → s.key = some k →
       s.state = WwState.wait_for_webtc_offer →
       o.openJson k d = some j → j.type = some "offer" →
       (onmessage o s d).2 =
         [.deferOnFinish [.setRemoteDescription j,
                          .wsSend (o.sealMsg k o.createAnswer),
                          .doneResolve (o.fingerprint k),
                          .setLocalDescription o.createAnswer]] ∧
       (onmessage o s d).1.state = WwState.wait_for_candidates) ∧
    (∀ s d k j, s.ws = true → s.pc = true → s.key = some k →
       s.state = WwState.wait_for_webtc_answer →
       o.openJson k d = some j → j.type = some "answer" →
       (onmessage o s d).2 =
         [.setRemoteDescription j, .doneResolve (o.fingerprint k)] ∧
       (onmessage o s d).1.state = WwState.wait_for_candidates) := by
  refine ⟨?_, ?_, ?_, ?_⟩
  · intro s d mA hws hst hstart
    simp [onmessage, hws, hst, hstart]
  · intro s d k mB hws hpc hst hex
    simp [onmessage, hws, hpc, hst, hex]
  · intro s d k j hws hpc hk hst ho hty
    simp [onmessage, hws, hpc, hk, hst, ho, hty]
  · intro s d k j hws hpc hk hst ho hty
    simp [onmessage, hws, hpc, hk, hst, ho, hty]

/-- Claim C1, witness for the amended theorem: the joiner sends PAKE
message 1 on the broker announcement. -/
theorem role_coupling_witness :
    (onmessage cexOracle joinerB "announce").1.state =
      WwState.wait_for_pake_b :=
  ((role_coupling cexOracle).1 joinerB "announce" "pakeA" rfl rfl rfl).2

/-- Claim C5: with a derived key, a sealed inbound message that fails to
open makes the session fail terminally: state becomes `error`, both the
signal and done promises are rejected with the reason "bad key", a sealed
"bye" is sent, and the socket is closed with the bad-key code 4005.  This
holds in each of the three states that open sealed messages. -/
theorem badkey_fatal (o : Oracle) (s : WwSession) (d : String) (k : Key)
    (hws : s.ws = true) (hpc : s.pc = true) (hk : s.key = some k)
    (hst : s.state = WwState.wait_for_webtc_offer ∨
           s.state = WwState.wait_for_webtc_answer ∨
           s.state = WwState.wait_for_candidates)
    (ho : o.openJson k d = none) :
    (onmessage o s d).1.state = WwState.error ∧
    (onmessage o s d).2 =
      [.signalReject "bad key", .doneReject "bad key",
       .wsSend (o.sealMsg k "bye"), .wsClose 4005] := by
  rcases hst with h | h | h <;>
    simp [onmessage, hws, hpc, hk, h, ho, badKeyAbort, fail]

/-- Claim C5, witness: a garbage sealed message at the joiner waiting for
the offer. -/
theorem badkey_fatal_witness :
    (onmessage cexOracle joinerS "garbage").1.state = WwState.error :=
  (badkey_fatal cexOracle joinerS "garbage" [1] rfl rfl rfl (Or.inl rfl)
    rfl).1

/-- Claim C6: a message inconsistent with the current state (a non-offer
where an offer is expected, a non-answer where an answer is expected, or
any message in a state with no inbound handler) yields state `error`, the
two unexpected-message rejections, and no mutation of the transport
endpoint: no remote description is set and no candidate is added, also not
in a deferred callback. -/
theorem unexpected_message_fatal (o : Oracle) (s : WwSession) (d : String)
    (hws : s.ws = true)
    (hcase :
      (∃ k j, s.state = WwState.wait_for_webtc_offer ∧ s.pc = true ∧
         s.key = some k ∧ o.openJson k d = some j ∧ j.type ≠ some "offer") ∨
      (∃ k j, s.state = WwState.wait_for_webtc_answer ∧ s.pc = true ∧
         s.key = some k ∧ o.openJson k d = some j ∧ j.type ≠ some "answer") ∨
      (s.state = WwState.wait_for_pc_setup ∨
       s.state = WwState.wait_for_local_offer ∨
       s.state = WwState.wait_for_local_answer)) :
    (onmessage o s d).1.state = WwState.error ∧
    (onmessage o s d).2 = [.signalReject "unexpected message",
                           .doneReject "unexpected message"] ∧
    appliesToPC (onmessage o s d).2 = false := by
  rcases hcase with ⟨k, j, h1, h2, h3, h4, h5⟩ | ⟨k, j, h1, h2, h3, h4, h5⟩ |
    hrest
  · simp [onmessage, hws, h1, h2, h3, h4, h5, fail, appliesToPC]
  · simp [onmessage, hws, h1, h2, h3, h4, h5, fail, appliesToPC]
  · rcases hrest with h | h | h <;>
      simp [onmessage, hws, h, fail, appliesToPC]

/-- Claim C6, witness: any message in the handler-less state
`wait_for_pc_setup`. -/
theorem unexpected_message_fatal_witness :
    (onmessage cexOracle pcInitS "x").1.state = WwState.error :=
  (unexpected_message_fatal cexOracle pcInitS "x" rfl
    (Or.inr (Or.inr (Or.inl rfl)))).1

/-- Claim C7: the `error` state is absorbing: a message processed in state
`error` leaves the session unchanged and produces no effects at all. -/
theorem error_absorbing (o : Oracle) (s : WwSession) (d : String)
    (h : s.state = WwState.error) : onmessage o s d = (s, []) := by
  by_cases hws : s.ws = false <;> simp [onmessage, hws, h]

/-- Claim C7, witness at a concrete errored session. -/
theorem error_absorbing_witness :
    onmessage cexOracle errS "x" = (errS, []) :=
  error_absorbing cexOracle errS "x" rfl

/-- Claim C9: `wsserver` appends the slot to the path only when it is
present and nonzero; with slot `0` it produces exactly the URL produced
with no slot at all, so slot 0 and an absent slot are indistinguishable. -/
theorem wsserver_slot_zero (u : ParsedURL) (n : Nat) :
    wsserver u (some 0) = wsserver u none ∧
    (n ≠ 0 → wsserver u (some n) = wsserver u none ++ toString n) := by
  constructor
  · simp [wsserver]
  · intro hn
    simp [wsserver, hn, String.append_assoc]

/-- Claim C9, witness at a concrete URL and slot 5. -/
theorem wsserver_slot_zero_witness :
    wsserver urlEx (some 5) = wsserver urlEx none ++ toString 5 :=
  (wsserver_slot_zero urlEx 5).2 (by decide)

/-- Claim C10: close codes 4004 (peer-hung-up) and 1001 are silently
ignored by `onclose` — no state change, no rejection; any close code
outside {4000, 4001, 4002, 4003, 4004, 1001} fails the session with a
reason string that contains both the close reason and the decimal close
code. -/
theorem onclose_codes (s : WwSession) (code : Nat) (reason : String) :
    ((code = 4004 ∨ code = 1001) → onclose s code reason = (s, [])) ∧
    (code ≠ 4000 → code ≠ 4001 → code ≠ 4002 → code ≠ 4003 → code ≠ 4004 →
     code ≠ 1001 →
       (onclose s code reason).1.state = WwState.error ∧
       (onclose s code reason).2 =
         [.signalReject ("websocket session closed: " ++ reason ++ " (" ++
            toString code ++ ")"),
          .doneReject ("websocket session closed: " ++ reason ++ " (" ++
            toString code ++ ")")] ∧
       (∃ x y, "websocket session closed: " ++ reason ++ " (" ++
          toString code ++ ")" = x ++ reason ++ y) ∧
       (∃ x y, "websocket session closed: " ++ reason ++ " (" ++
          toString code ++ ")" = x ++ toString code ++ y)) := by
  constructor
  · rintro (h | h) <;> subst h <;> simp [onclose]
  · intro h1 h2 h3 h4 h5 h6
    refine ⟨?_, ?_, ?_, ?_⟩
    · simp [onclose, h1, h2, h3, h4, h5, h6, fail]
    · simp [onclose, h1, h2, h3, h4, h5, h6, fail]
    · exact ⟨"websocket session closed: ", " (" ++ toString code ++ ")",
        by simp [String.append_assoc]⟩
    · exact ⟨"websocket session closed: " ++ reason ++ " (", ")",
        by simp [String.append_assoc]⟩

/-- Claim C10, witness at the unlisted close code 4242. -/
theorem onclose_codes_witness :
    (onclose errS 4242 "boom").1.state = WwState.error :=
  ((onclose_codes errS 4242 "boom").2 (by decide) (by decide) (by decide)
    (by decide) (by decide) (by decide)).1

end WW
